import Mathlib

/-!
Verification of the Relay synchronization engine and connection handling.

This file gives a shallow embedding, in Lean, of the two core components of
the repository:

* `SyncFile` (hash-based push/pull reconciliation of a tracked file against a
  content-addressable store and a CRDT-backed shared metadata map), and
* `HasProvider` (the connection handle: transport socket readiness, intent,
  bounded auto-reconnect, token-driven URL refresh).

Pure functions of the source become Lean functions; stateful methods become
explicit state-passing functions; JavaScript `undefined` becomes `Option`;
fallible methods return `Except`.  JavaScript truthiness quirks that the
source relies on (`0 || d`, `!!promise`, `!str`) are translated exactly as
the engine evaluates them, with comments at each site.  External collaborators
(the CAS, the vault, the transport, the clock, the hasher, uuid generation)
enter as explicit parameters or state fields, never as hidden effects.
-/

namespace Relay

/-! ## Connection state machine (`HasProvider`) -/

/-- Connection status derived from transport socket readiness
(`ConnectionStatus` in the source). -/
inductive ConnectionStatus
  | connecting
  | connected
  | disconnected
  | unknown
deriving DecidableEq, Repr

/-- Caller intent (`ConnectionIntent` in the source). -/
inductive ConnectionIntent
  | connected
  | disconnected
deriving DecidableEq, Repr

/-- `readyState.CLOSED` (= 3) in the source's `readyState` enum. -/
def readyStateCLOSED : Nat := 3

/-- The source's `readyStateMap` object: a lookup table keyed by the numeric
readiness value.  A JavaScript object lookup at a missing key yields
`undefined`, embedded here as `none`. -/
def readyStateMap (n : Nat) : Option ConnectionStatus :=
  if n = 0 then some ConnectionStatus.connecting
  else if n = 1 then some ConnectionStatus.connected
  else if n = 2 then some ConnectionStatus.disconnected
  else if n = 3 then some ConnectionStatus.disconnected
  else none

/-- JavaScript `x || d` on an optional number: `undefined` and `0` are both
falsy, every other number is returned unchanged. -/
def jsOrNum (x : Option Nat) (d : Nat) : Nat :=
  match x with
  | none => d
  | some n => if n = 0 then d else n

/-- The `status` component of the `state` getter:
`readyStateMap[(this._provider.ws?.readyState || readyState.CLOSED)]`.
The socket is embedded as `Option Nat`: `none` for a null socket, `some n`
for a socket whose `readyState` is `n`. -/
def statusOfReadyState (ws : Option Nat) : Option ConnectionStatus :=
  readyStateMap (jsOrNum ws readyStateCLOSED)

/-- `PROVIDER_MAX_ERRORS = 3` in the source. -/
def PROVIDER_MAX_ERRORS : Nat := 3

/-- The observable state of one `HasProvider` handle and its underlying
y-sweet provider: transport URL, `shouldConnect` (the intent flag),
`wsUnsuccessfulReconnects` (the consecutive error counter maintained by the
transport), the socket, and a counter of `notifyListeners` calls (each call
synchronously pushes the current snapshot to every subscriber). -/
structure ProviderState where
  url : String
  shouldConnect : Bool
  wsUnsuccessfulReconnects : Nat
  ws : Option Nat
  notifications : Nat
deriving DecidableEq, Repr

/-- The `status` component of the `state` getter on a handle. -/
def stateStatus (p : ProviderState) : Option ConnectionStatus :=
  statusOfReadyState p.ws

/-- The `intent` component of the `state` getter:
`this._provider.shouldConnect ? "connected" : "disconnected"`. -/
def stateIntent (p : ProviderState) : ConnectionIntent :=
  if p.shouldConnect then ConnectionIntent.connected
  else ConnectionIntent.disconnected

/-- `notifyListeners()`: synchronously notifies every subscriber; embedded as
a bump of the notification counter. -/
def notifyListeners (p : ProviderState) : ProviderState :=
  { p with notifications := p.notifications + 1 }

/-- `disconnect()`: sets `shouldConnect` to false, closes and nulls the
socket, then notifies subscribers. -/
def hpDisconnect (p : ProviderState) : ProviderState :=
  notifyListeners { p with shouldConnect := false, ws := none }

/-- The connection-error handler installed in the constructor.  It first
computes `shouldConnect = url && provider.shouldConnect &&
wsUnsuccessfulReconnects < PROVIDER_MAX_ERRORS` (JavaScript string
truthiness: an empty URL is falsy), then unconditionally calls
`this.disconnect()`, then calls `this.connect()` iff the precomputed flag
held.  Returns the post-disconnect state and whether `connect()` was
invoked. -/
def onConnectionError (p : ProviderState) : ProviderState × Bool :=
  let sc := (!p.url.isEmpty) && p.shouldConnect
    && decide (p.wsUnsuccessfulReconnects < PROVIDER_MAX_ERRORS)
  (hpDisconnect p, sc)

/-- Retry decisions over `n` consecutive connection-error events delivered
with intent `connected` and the given URL.  The transport increments
`wsUnsuccessfulReconnects` once per failed attempt, so at the k-th
consecutive error (0-indexed) the counter reads `k`; the stipulated scenario
has intent re-established (`shouldConnect = true`) before each event. -/
def consecutiveErrorRetries (url : String) (n : Nat) : List Bool :=
  (List.range n).map (fun k =>
    (onConnectionError
      { url := url, shouldConnect := true, wsUnsuccessfulReconnects := k,
        ws := some 1, notifications := 0 }).2)

/-- A client token `{url, token, expiryTime}`. -/
structure ClientToken where
  url : String
  token : String
  expiryTime : Nat
deriving DecidableEq, Repr

/-- `refreshProvider(clientToken)`: if the URL derived from the new token
differs from the provider's current URL, hot-swap it — set the new URL,
reset the error counter to 0, and close the existing socket (close moves a
live socket to the CLOSING readiness state, 2); otherwise do nothing. -/
def refreshProvider (p : ProviderState) (tok : ClientToken) : ProviderState :=
  if p.url ≠ tok.url then
    { p with
        url := tok.url
        wsUnsuccessfulReconnects := 0
        ws := p.ws.map (fun _ => 2) }
  else p

/-- The external transport's own `connect()` primitive: restores the
connect intent and opens a fresh socket in the CONNECTING readiness state. -/
def providerConnect (p : ProviderState) : ProviderState :=
  { p with shouldConnect := true, ws := some 0 }

/-- The `connected` getter: `this.state.status === "connected"`. -/
def hpConnected (p : ProviderState) : Bool :=
  stateStatus p == some ConnectionStatus.connected

/-- `connect()`.  The outcome of the asynchronous token acquisition is an
explicit parameter (`none` embeds a rejected or timed-out token promise), as
is whether the transport connect step succeeds.  The source resolves `true`
immediately when already connected; otherwise it chains
`getProviderToken().then(tok => { refreshProvider(tok); provider.connect();
notifyListeners(); return true; }).catch(e => false)` — every failure inside
the chain is caught and resolved as `false`, never thrown.  Totality of this
embedding (it returns a `Bool`, not an `Except`) is the no-throw contract. -/
def hpConnect (p : ProviderState) (tokenOutcome : Option ClientToken)
    (transportOk : Bool) : Bool × ProviderState :=
  if hpConnected p then (true, p)
  else
    match tokenOutcome with
    | none => (false, p)
    | some tok =>
      let p1 := refreshProvider p tok
      if transportOk then (true, notifyListeners (providerConnect p1))
      else (false, p1)

/-! ## Synchronization engine (`SyncFile`) -/

/-- Byte buffers (`ArrayBuffer` contents). -/
abbrev Bytes := List Nat

/-- Content hashes: hex digest strings produced by `generateHash`.  The
digest itself is an external primitive (`crypto.subtle.digest`), so every
operation below takes the hash function as an explicit parameter `g`. -/
abbrev Hash := String

/-- File identifiers. -/
abbrev Guid := String

/-- JavaScript falsiness of an optional string (`!x`): `undefined` and the
empty string are falsy. -/
def strFalsy : Option String → Bool
  | none => true
  | some s => s.isEmpty

/-- Modelled from the spec: the `S3RN` resource-address module is not under
`src/` (only its importers are).  The spec directs that the dynamic
`instanceof` variant tests be represented as a tagged union of distinct
address variants with no subtyping, so each source class becomes one
constructor and `instanceof C` becomes a match on the `C` constructor. -/
inductive S3RNType
  | s3File (folderGuid fileGuid : Guid)
  | s3RemoteFile (relayId folderGuid fileGuid : Guid)
  | s3Document (folderGuid docGuid : Guid)
  | s3RemoteDocument (relayId folderGuid docGuid : Guid)
  | s3Folder (folderGuid : Guid)
  | s3RemoteFolder (relayId folderGuid : Guid)
deriving DecidableEq, Repr

/-- Remote-variant addresses. -/
def isRemoteAddr : S3RNType → Bool
  | S3RNType.s3RemoteFile _ _ _ => true
  | S3RNType.s3RemoteDocument _ _ _ => true
  | S3RNType.s3RemoteFolder _ _ => true
  | _ => false

/-- A materialized local file: bytes plus the stats (`ctime`, `mtime`) the
vault reports for it. -/
structure VaultFile where
  bytes : Bytes
  ctime : Nat
  mtime : Nat
deriving DecidableEq, Repr

/-- A CAS record: the metadata the engine passes to `cas.writeFile` plus the
stored bytes and the server-assigned `id` used by `cas.readFile`. -/
structure CASRecord where
  id : Nat
  guid : Guid
  name : String
  synchash : Hash
  ctime : Nat
  mtime : Nat
  parent : Option Guid
  is_directory : Bool
  synctime : Nat
  bytes : Bytes
deriving DecidableEq, Repr

/-- `cas.getByHash(hash)`: the metadata record for a content hash, if any. -/
def getByHash (cas : List CASRecord) (h : Hash) : Option CASRecord :=
  cas.find? (fun r => r.synchash == h)

/-- `cas.readFile(id)`: the stored bytes for a record id, if any (a missing
id rejects the promise, embedded as `none`). -/
def casReadFileById (cas : List CASRecord) (i : Nat) : Option Bytes :=
  (cas.find? (fun r => r.id == i)).map (fun r => r.bytes)

/-- `cas.writeFile(metadata, bytes)`: appends a record, with the store
assigning the next fresh id. -/
def casWriteFileRecord (cas : List CASRecord) (r : CASRecord) :
    List CASRecord :=
  cas ++ [{ r with id := cas.length }]

/-- The complete observable state of one `SyncFile` together with the
externally-owned collaborators it reads and writes: the two CRDT-backed
shared metadata maps of its parent folder (`hashes`, `synctimes`, embedded
as association lists where `set` prepends and `get` takes the first match,
matching last-writer-wins lookup), the CAS, and the vault entry at the
file's resolved path (`vaultFile`, `none` when no local materialization
exists).  `tfileCached` embeds the nullable `_tfile` handle, `filehash` the
`_filehash` cache, `synctime` the local sync time. -/
structure SyncState where
  guid : Guid
  path : String
  name : String
  filehash : Option Hash
  synctime : Nat
  connected : Bool
  tfileCached : Bool
  s3rn : S3RNType
  folderGuid : Guid
  folderS3rn : S3RNType
  relayId : Option Guid
  hashes : List (Guid × Hash)
  synctimes : List (Guid × Nat)
  cas : List CASRecord
  vaultFile : Option VaultFile
deriving DecidableEq, Repr

/-- The `serverHash` getter: `sharedFolder.hashes.get(this.guid)`. -/
def serverHash (st : SyncState) : Option Hash :=
  List.lookup st.guid st.hashes

/-- `sharedFolder.synctimes.get(this.guid) || 0` (the source's default for a
missing entry; a stored 0 is falsy but `0 || 0` is still 0). -/
def remoteSyncTime (st : SyncState) : Nat :=
  (List.lookup st.guid st.synctimes).getD 0

/-- The `shouldPull` getter:
`(sharedFolder.synctimes.get(guid) || 0) > this.synctime`. -/
def shouldPull (st : SyncState) : Bool :=
  decide (remoteSyncTime st > st.synctime)

/-- `getRemote()`: `undefined` when `serverHash` is falsy, otherwise the CAS
metadata record for the server hash. -/
def getRemote (st : SyncState) : Option CASRecord :=
  if strFalsy (serverHash st) then none
  else getByHash st.cas ((serverHash st).getD "")

/-- The `shouldPush` getter.  The source computes
`serverOutOfDate || !serverHasContent` where
`serverHasContent = !!this.getRemote()`; `getRemote()` is `async` and the
call is not awaited, so the double negation tests the truthiness of the
returned Promise object, which is always true whatever it resolves to. -/
def shouldPush (st : SyncState) : Bool :=
  let serverOutOfDate := decide (remoteSyncTime st < st.synctime)
  let serverHasContent := true
  serverOutOfDate || !serverHasContent

/-- The specified reading of `shouldPush` (spec section 4.2): the timestamp
comparison, or the remote metadata for the server hash being absent from the
CAS.  Stated for comparison with the source-derived `shouldPush`. -/
def shouldPushSpecified (st : SyncState) : Bool :=
  decide (remoteSyncTime st < st.synctime) || (getRemote st).isNone

/-- The `isStale` getter: `this._filehash !== sharedFolder.hashes.get(guid)`
— strict inequality of two possibly-undefined strings, so two `undefined`
sides compare equal. -/
def isStale (st : SyncState) : Bool :=
  decide (st.filehash ≠ serverHash st)

/-- The external-call trace of one engine operation: which CAS and
byte-store (vault) primitives it invoked, in order. -/
inductive Eff
  | casGetByHash (h : Hash)
  | casWriteFile (h : Hash)
  | casReadFile (i : Nat)
  | vaultRead
  | vaultWrite
deriving DecidableEq, Repr

/-- `getRemote()` with its trace: looking up a falsy server hash touches
nothing, otherwise one CAS hash lookup happens. -/
def getRemoteT (st : SyncState) : Option CASRecord × List Eff :=
  if strFalsy (serverHash st) then (none, [])
  else (getByHash st.cas ((serverHash st).getD ""),
    [Eff.casGetByHash ((serverHash st).getD "")])

/-- Failure modes of the engine operations (section 7 taxonomy):
`serverHashMissing` is the source's `"no server hash for item"` throw,
`serverContentMissing` its `"item missing from server"` throw,
`tfileMissing` the `tfile` getter's `"TFile API used before file existed"`
throw, and `casReadFailed` a rejected CAS byte read. -/
inductive SyncError
  | serverHashMissing
  | serverContentMissing
  | tfileMissing
  | casReadFailed
deriving DecidableEq, Repr

/-- `vault.adapter.writeBinary(path, content)`: replaces the bytes, stamps
`mtime` with the current clock, preserves `ctime` when the file already
existed. -/
def vaultWriteBinary (old : Option VaultFile) (content : Bytes) (now : Nat) :
    VaultFile :=
  { bytes := content, ctime := (old.map (fun f => f.ctime)).getD now,
    mtime := now }

/-- `pull()`.  Throws when the server hash is falsy; then performs the
source's discarded un-awaited `cas.getByHash` call (line 205); then
`getRemote()`, throwing when the CAS has no record; then reads the record's
bytes by id, writes them to the vault at the file's resolved path, caches
the recomputed hash, and re-resolves the local file handle. -/
def pull (g : Bytes → Hash) (now : Nat) (st : SyncState) :
    Except SyncError SyncState × List Eff :=
  if strFalsy (serverHash st) then
    (Except.error SyncError.serverHashMissing, [])
  else
    let h := (serverHash st).getD ""
    let t0 := [Eff.casGetByHash h]
    match getRemoteT st with
    | (none, t1) => (Except.error SyncError.serverContentMissing, t0 ++ t1)
    | (some fi, t1) =>
      match casReadFileById st.cas fi.id with
      | none =>
        (Except.error SyncError.casReadFailed,
          t0 ++ t1 ++ [Eff.casReadFile fi.id])
      | some content =>
        (Except.ok { st with
            vaultFile := some (vaultWriteBinary st.vaultFile content now)
            filehash := some (g content)
            tfileCached := true },
          t0 ++ t1 ++ [Eff.casReadFile fi.id, Eff.vaultWrite])

/-- `push()`.  Looks up the remote metadata, recomputes the hash from the
current local bytes (`updateStats` then a second `readBinary`, both
reflected in the trace), writes a CAS record carrying the bytes when the
recomputed hash differs from the remote record's hash (the write attempt is
wrapped in try/catch: a duplicate-write rejection, `dupError = true`, is
swallowed and leaves the store unchanged), sets the local sync time to the
current clock, then — iff the hash differs from `hashes.get(guid)` — updates
`hashes[guid]` and `synctimes[guid]` together inside one `ydoc.transact`,
and returns the hash.  A missing local materialization makes the `tfile`
getter throw.  The source reads `Date.now()` twice (record field and
`this.synctime`); both reads are embedded as the single clock parameter
`now`.  `freshGuid` embeds the `uuidv4()` call. -/
def push (g : Bytes → Hash) (freshGuid : Guid) (now : Nat) (dupError : Bool)
    (st : SyncState) : Except SyncError (Hash × SyncState) × List Eff :=
  let fi := (getRemoteT st).1
  let t0 := (getRemoteT st).2
  match st.vaultFile with
  | none => (Except.error SyncError.tfileMissing, t0)
  | some vf =>
    let st1 := { st with filehash := some (g vf.bytes) }
    let content := vf.bytes
    let h := g content
    let cas2 :=
      if ((fi.map fun r => r.synchash) ≠ some h) ∧ dupError = false then
        casWriteFileRecord st1.cas
          { id := 0, guid := (fi.map fun r => r.guid).getD freshGuid,
            name := st.name, synchash := h, ctime := vf.ctime,
            mtime := vf.mtime, parent := none, is_directory := false,
            synctime := now, bytes := content }
      else st1.cas
    let t1 :=
      if (fi.map fun r => r.synchash) ≠ some h then [Eff.casWriteFile h]
      else []
    let st2 := { st1 with cas := cas2, synctime := now }
    let st3 :=
      if List.lookup st2.guid st2.hashes ≠ some h then
        { st2 with
            hashes := (st2.guid, h) :: st2.hashes
            synctimes := (st2.guid, now) :: st2.synctimes }
      else st2
    (Except.ok (h, st3), t0 ++ [Eff.vaultRead, Eff.vaultRead] ++ t1)

/-- `getHash(true)` as called by `sync()`: force-recompute via
`updateStats`, which reads the local bytes through the `tfile` getter
(throwing when no vault file exists) and caches the digest. -/
def getHashForce (g : Bytes → Hash) (st : SyncState) :
    Except SyncError SyncState :=
  match st.vaultFile with
  | none => Except.error SyncError.tfileMissing
  | some vf => Except.ok { st with filehash := some (g vf.bytes) }

/-- Which reconciliation branch `sync()` took. -/
inductive SyncAction
  | noAction
  | pulled
  | pushed
deriving DecidableEq, Repr

/-- `sync()`: return immediately when `connected` is false; bootstrap-pull
when no cached local file handle exists; otherwise force-recompute the hash,
then pull if `isStale && shouldPull` and push otherwise. -/
def sync (g : Bytes → Hash) (freshGuid : Guid) (now : Nat) (dupError : Bool)
    (st : SyncState) : Except SyncError SyncState × SyncAction × List Eff :=
  if st.connected = false then (Except.ok st, SyncAction.noAction, [])
  else if st.tfileCached = false then
    let pr := pull g now st
    (pr.1, SyncAction.pulled, pr.2)
  else
    match getHashForce g st with
    | Except.error e => (Except.error e, SyncAction.noAction, [])
    | Except.ok st1 =>
      if isStale st1 && shouldPull st1 then
        let pr := pull g now st1
        (pr.1, SyncAction.pulled, Eff.vaultRead :: pr.2)
      else
        let pr := push g freshGuid now dupError st1
        (pr.1.map (fun x => x.2), SyncAction.pushed, Eff.vaultRead :: pr.2)

/-- `SyncFile.connect()`.  Local-only parent (folder address in the
`S3Folder` variant): resolve false, touch nothing.  Otherwise, when the
file's own address is in the `S3Document` variant, rebuild it as
`S3RemoteFile` (relay present) or `S3File` (no relay); then, when the parent
folder's `shouldConnect` is set, await the folder connection, set
`connected = true` and resolve true, else resolve false. -/
def syncFileConnect (folderShouldConnect : Bool) (st : SyncState) :
    Bool × SyncState :=
  match st.folderS3rn with
  | S3RNType.s3Folder _ => (false, st)
  | _ =>
    let st1 :=
      match st.s3rn with
      | S3RNType.s3Document _ _ =>
        match st.relayId with
        | some rid =>
          { st with s3rn := S3RNType.s3RemoteFile rid st.folderGuid st.guid }
        | none => { st with s3rn := S3RNType.s3File st.folderGuid st.guid }
      | _ => st
    if folderShouldConnect then (true, { st1 with connected := true })
    else (false, st1)

/-! ## Concrete inputs used by counterexamples and failing-input
evaluations -/

/-- A tracked file whose remote sync time equals its local sync time and
whose named server hash has no CAS record: the claimed remote-content clause
of `shouldPush` would fire here. -/
def c1FailingInput : SyncState :=
  { guid := "g", path := "notes/f.md", name := "f.md",
    filehash := some "aa", synctime := 5, connected := true,
    tfileCached := true, s3rn := S3RNType.s3File "fg" "g",
    folderGuid := "fg", folderS3rn := S3RNType.s3RemoteFolder "r" "fg",
    relayId := some "r", hashes := [("g", "bb")], synctimes := [("g", 5)],
    cas := [], vaultFile := some { bytes := [1, 2], ctime := 1, mtime := 2 } }

/-- A freshly constructed tracked file: no cached local hash, no entry in
the shared hashes map. -/
def c2FreshFile : SyncState :=
  { guid := "g", path := "notes/f.md", name := "f.md", filehash := none,
    synctime := 0, connected := true, tfileCached := false,
    s3rn := S3RNType.s3File "fg" "g", folderGuid := "fg",
    folderS3rn := S3RNType.s3RemoteFolder "r" "fg", relayId := some "r",
    hashes := [], synctimes := [], cas := [], vaultFile := none }

/-- A tracked file whose shared hashes map names the empty string as its
server hash, with an empty CAS. -/
def c5EmptyHashInput : SyncState :=
  { guid := "g", path := "notes/f.md", name := "f.md",
    filehash := some "aa", synctime := 5, connected := true,
    tfileCached := true, s3rn := S3RNType.s3File "fg" "g",
    folderGuid := "fg", folderS3rn := S3RNType.s3RemoteFolder "r" "fg",
    relayId := some "r", hashes := [("g", "")], synctimes := [("g", 9)],
    cas := [], vaultFile := some { bytes := [1, 2], ctime := 1, mtime := 2 } }

/-- A tracked file with a local-variant (`S3File`) address whose shared
space has a remote relay and a remote-variant folder address. -/
def c9FailingInput : SyncState :=
  { guid := "g", path := "notes/f.md", name := "f.md", filehash := none,
    synctime := 0, connected := false, tfileCached := true,
    s3rn := S3RNType.s3File "fg" "g", folderGuid := "fg",
    folderS3rn := S3RNType.s3RemoteFolder "r" "fg", relayId := some "r",
    hashes := [], synctimes := [], cas := [], vaultFile := none }

/-- A disconnected tracked file, for the C3 witness. -/
def c3DisconnectedInput : SyncState :=
  { guid := "g", path := "notes/f.md", name := "f.md",
    filehash := some "aa", synctime := 5, connected := false,
    tfileCached := true, s3rn := S3RNType.s3File "fg" "g",
    folderGuid := "fg", folderS3rn := S3RNType.s3RemoteFolder "r" "fg",
    relayId := some "r", hashes := [("g", "bb")], synctimes := [("g", 9)],
    cas := [], vaultFile := some { bytes := [1, 2], ctime := 1, mtime := 2 } }

/-- A tracked file with fresh local bytes on disk, no shared-map entries and
an empty CAS, for the C4 witness. -/
def c4Input : SyncState :=
  { guid := "g", path := "notes/f.md", name := "f.md", filehash := none,
    synctime := 4, connected := true, tfileCached := true,
    s3rn := S3RNType.s3File "fg" "g", folderGuid := "fg",
    folderS3rn := S3RNType.s3RemoteFolder "r" "fg", relayId := some "r",
    hashes := [], synctimes := [], cas := [],
    vaultFile := some { bytes := [1], ctime := 1, mtime := 2 } }

/-- A tracked file whose pull succeeds, for the C10 witness. -/
def c10Input : SyncState :=
  { guid := "g", path := "notes/f.md", name := "f.md",
    filehash := some "old", synctime := 4, connected := true,
    tfileCached := false, s3rn := S3RNType.s3File "fg" "g",
    folderGuid := "fg", folderS3rn := S3RNType.s3RemoteFolder "r" "fg",
    relayId := some "r", hashes := [("g", "hh")], synctimes := [("g", 9)],
    cas := [{ id := 0, guid := "cg", name := "f.md", synchash := "hh",
              ctime := 1, mtime := 2, parent := none,
              is_directory := false, synctime := 3, bytes := [7, 8] }],
    vaultFile := none }

/-- The state `pull` produces from `c10Input`. -/
def c10Pulled : SyncState :=
  { c10Input with
      filehash := some "hh"
      tfileCached := true
      vaultFile := some { bytes := [7, 8], ctime := 6, mtime := 6 } }

/-! ## Theorems: connection claims -/

/-- No key of the readiness lookup table maps to the `unknown` status. -/
theorem readyStateMap_ne_unknown (n : Nat) :
    readyStateMap n ≠ some ConnectionStatus.unknown := by
  unfold readyStateMap
  split
  · simp
  · split
    · simp
    · split
      · simp
      · split
        · simp
        · simp

/-- Boolean string emptiness test, in the `= false` orientation. -/
theorem isEmpty_eq_false_iff (s : String) : s.isEmpty = false ↔ s ≠ "" := by
  rw [← Bool.not_eq_true]
  exact not_congr (String.isEmpty_iff s)

/-- Claim C8 (code bug evaluation): the `state` getter computes
`readyStateMap[ws?.readyState || CLOSED]`.  For a socket in the CONNECTING
readiness state (0) the JavaScript `||` treats 0 as falsy, so the lookup key
becomes CLOSED and the derived status is `disconnected`, not `connecting` as
the claim states.  OPEN, CLOSING and CLOSED behave as claimed, and no
readiness value whatsoever maps to the claimed defensive default `unknown`
(unrecognized values yield `undefined`). -/
theorem c8_status_derivation_bug :
    statusOfReadyState (some 0) = some ConnectionStatus.disconnected
    ∧ statusOfReadyState (some 1) = some ConnectionStatus.connected
    ∧ statusOfReadyState (some 2) = some ConnectionStatus.disconnected
    ∧ statusOfReadyState (some 3) = some ConnectionStatus.disconnected
    ∧ statusOfReadyState none = some ConnectionStatus.disconnected
    ∧ (∀ ws, statusOfReadyState ws ≠ some ConnectionStatus.unknown) := by
  refine ⟨rfl, rfl, rfl, rfl, rfl, ?_⟩
  intro ws
  exact readyStateMap_ne_unknown _

/-- Claim C6: on every transport connection-error event the handle
unconditionally disconnects (intent set to disconnected, socket torn down,
subscribers notified), and `connect()` is re-invoked iff a URL is present,
the intent was connected, and the consecutive error count is below 3; hence
over 4 consecutive error events with intent connected and a valid URL,
exactly the first 3 trigger an automatic retry and the 4th does not. -/
theorem c6_bounded_reconnect (p : ProviderState) :
    (onConnectionError p).1 = hpDisconnect p
    ∧ stateIntent (onConnectionError p).1 = ConnectionIntent.disconnected
    ∧ (onConnectionError p).1.ws = none
    ∧ (onConnectionError p).1.notifications = p.notifications + 1
    ∧ ((onConnectionError p).2 = true ↔
        (p.url ≠ "" ∧ p.shouldConnect = true
          ∧ p.wsUnsuccessfulReconnects < PROVIDER_MAX_ERRORS))
    ∧ (p.url ≠ "" →
        consecutiveErrorRetries p.url 4 = [true, true, true, false]) := by
  refine ⟨rfl, rfl, rfl, rfl, ?_, ?_⟩
  · simp [onConnectionError, Bool.and_eq_true, decide_eq_true_eq,
      isEmpty_eq_false_iff, and_assoc]
  · intro hurl
    have hne : p.url.isEmpty = false := by
      rcases h : p.url.isEmpty with _ | _
      · rfl
      · exact absurd ((String.isEmpty_iff p.url).mp h) hurl
    simp [consecutiveErrorRetries, onConnectionError, PROVIDER_MAX_ERRORS,
      List.range_succ, hne]

/-- Witness for C6 at a concrete handle state. -/
theorem c6_bounded_reconnect_witness :
    consecutiveErrorRetries "wss://relay.example" 4
      = [true, true, true, false] :=
  (c6_bounded_reconnect
    { url := "wss://relay.example", shouldConnect := true,
      wsUnsuccessfulReconnects := 0, ws := some 1,
      notifications := 0 }).2.2.2.2.2 (by decide)

/-- Claim C7: `connect()` never throws to its caller.  The embedding is a
total function into `Bool × ProviderState` — every outcome, including token
acquisition failure and transport setup failure, is a resolved boolean: it
resolves `true` as a no-op when already connected, `true` when token
acquisition and the transport connect both succeed, and `false` on any
failure of either. -/
theorem c7_connect_never_throws (p : ProviderState)
    (tokenOutcome : Option ClientToken) (transportOk : Bool) :
    (hpConnected p = true → hpConnect p tokenOutcome transportOk = (true, p))
    ∧ (hpConnected p = false → tokenOutcome = none →
        (hpConnect p tokenOutcome transportOk).1 = false)
    ∧ (∀ tok, hpConnected p = false → tokenOutcome = some tok →
        transportOk = false → (hpConnect p tokenOutcome transportOk).1 = false)
    ∧ (∀ tok, tokenOutcome = some tok → transportOk = true →
        (hpConnect p tokenOutcome transportOk).1 = true) := by
  refine ⟨?_, ?_, ?_, ?_⟩
  · intro hc
    simp [hpConnect, hc]
  · intro hc ht
    simp [hpConnect, hc, ht]
  · intro tok hc ht htr
    simp [hpConnect, hc, ht, htr]
  · intro tok ht htr
    rcases h : hpConnected p with _ | _
    · simp [hpConnect, h, ht, htr]
    · simp [hpConnect, h]

/-- Witness for C7 at a concrete disconnected handle and failed token
acquisition. -/
theorem c7_connect_never_throws_witness :
    (hpConnect
      { url := "", shouldConnect := true, wsUnsuccessfulReconnects := 0,
        ws := none, notifications := 0 } none true).1 = false :=
  (c7_connect_never_throws
    { url := "", shouldConnect := true, wsUnsuccessfulReconnects := 0,
      ws := none, notifications := 0 } none true).2.1 (by decide) rfl

/-! ## Theorems: synchronization claims -/

/-- Association-list lookup finds a freshly prepended binding. -/
theorem lookup_cons_self {β : Type} (k : Guid) (v : β) (m : List (Guid × β)) :
    List.lookup k ((k, v) :: m) = some v := by
  simp [List.lookup]

/-- The traced and untraced remote-metadata lookups agree. -/
theorem getRemoteT_fst (st : SyncState) : (getRemoteT st).1 = getRemote st := by
  unfold getRemoteT getRemote
  split <;> rfl

/-- The remote-metadata lookup never performs a CAS write. -/
theorem getRemoteT_trace_no_write (st : SyncState) (h : Hash) :
    Eff.casWriteFile h ∉ (getRemoteT st).2 := by
  unfold getRemoteT
  split
  · simp
  · simp

/-- A record returned by the remote-metadata lookup is in the CAS. -/
theorem getRemoteT_mem (st : SyncState) (r : CASRecord)
    (h : (getRemoteT st).1 = some r) : r ∈ st.cas := by
  unfold getRemoteT at h
  split at h
  · simp at h
  · simp only at h
    exact List.mem_of_find?_eq_some h

/-- A CAS holding some record with the wanted hash answers `getByHash` with
a record of that hash. -/
theorem getByHash_exists (cas : List CASRecord) (h : Hash) (r : CASRecord)
    (hmem : r ∈ cas) (hh : r.synchash = h) :
    ∃ r2, getByHash cas h = some r2 ∧ r2.synchash = h := by
  have hs : (cas.find? (fun r2 => r2.synchash == h)).isSome := by
    rw [List.find?_isSome]
    exact ⟨r, hmem, by simp [hh]⟩
  rcases ho : cas.find? (fun r2 => r2.synchash == h) with _ | r2
  · rw [ho] at hs
    simp at hs
  · refine ⟨r2, ho, ?_⟩
    have hp := List.find?_some ho
    simpa using hp

/-- Claim C1 (code bug evaluation): the `shouldPull` derivation matches the
claim, but `shouldPush`'s remote-content clause is dead code: the source
tests `!!this.getRemote()` on the un-awaited Promise, which is always
truthy, so `shouldPush` reduces to the timestamp comparison alone.  At the
failing input — remote sync time equal to the local one, server hash named
but absent from the CAS — the claim demands `shouldPush = true` while the
code yields `false`. -/
theorem c1_shouldPush_dead_clause :
    (∀ st, shouldPull st = decide (remoteSyncTime st > st.synctime))
    ∧ (∀ st, shouldPush st = decide (remoteSyncTime st < st.synctime))
    ∧ remoteSyncTime c1FailingInput = c1FailingInput.synctime
    ∧ getRemote c1FailingInput = none
    ∧ shouldPush c1FailingInput = false
    ∧ shouldPushSpecified c1FailingInput = true := by
  refine ⟨fun st => rfl, fun st => ?_, by decide, by decide, by decide,
    by decide⟩
  simp [shouldPush]

/-- Claim C2 counterexample: a freshly constructed file with no cached local
hash and no server hash reports `isStale = false`, not `true` as claimed —
JavaScript `undefined !== undefined` is false. -/
theorem c2_fresh_file_not_stale :
    c2FreshFile.filehash = none ∧ serverHash c2FreshFile = none
    ∧ isStale c2FreshFile = false := by
  decide

/-- Claim C2 (amended): `isStale` is strict inequality of the optional local
and server hashes — an undefined side is distinct from every defined hash,
but two undefined sides compare equal, so the freshly constructed file with
neither hash reports `isStale = false`. -/
theorem c2_isStale_cases (st : SyncState) :
    (∀ h, st.filehash = some h → serverHash st = none → isStale st = true)
    ∧ (∀ h, st.filehash = none → serverHash st = some h → isStale st = true)
    ∧ (∀ h1 h2, st.filehash = some h1 → serverHash st = some h2 →
        (isStale st = true ↔ h1 ≠ h2))
    ∧ (st.filehash = none → serverHash st = none → isStale st = false) := by
  refine ⟨?_, ?_, ?_, ?_⟩ <;> intros <;> simp_all [isStale]

/-- Witness for C2's amended statement at a concrete input. -/
theorem c2_isStale_cases_witness :
    isStale { c2FreshFile with filehash := some "aa" } = true :=
  (c2_isStale_cases { c2FreshFile with filehash := some "aa" }).1 "aa" rfl rfl

/-- Claim C5 (amended): `pull()` fails with the missing-server-hash error
whenever `serverHash` is undefined or the empty string (the source guards
with JavaScript falsiness), and with the missing-server-content error
whenever `serverHash` is a nonempty hash without a CAS metadata record; in
both failure cases no byte-store write is performed (for the first, the
returned trace is empty outright). -/
theorem c5_pull_failure_modes (g : Bytes → Hash) (now : Nat)
    (st : SyncState) :
    (serverHash st = none →
      pull g now st = (Except.error SyncError.serverHashMissing, []))
    ∧ (serverHash st = some "" →
      pull g now st = (Except.error SyncError.serverHashMissing, []))
    ∧ (∀ h, serverHash st = some h → h ≠ "" → getByHash st.cas h = none →
        (pull g now st).1 = Except.error SyncError.serverContentMissing
        ∧ Eff.vaultWrite ∉ (pull g now st).2) := by
  refine ⟨?_, ?_, ?_⟩
  · intro hs
    simp [pull, hs, strFalsy]
  · intro hs
    have hf : strFalsy (serverHash st) = true := by rw [hs]; rfl
    simp [pull, hf]
  · intro h hs hne hcas
    have he : h.isEmpty = false := (isEmpty_eq_false_iff h).mpr hne
    have hf : strFalsy (serverHash st) = false := by rw [hs]; exact he
    constructor
    · simp [pull, getRemoteT, strFalsy, hf, hs, hcas, he]
    · simp [pull, getRemoteT, strFalsy, hf, hs, hcas, he]

/-- Claim C5 counterexample: with the shared hashes map naming the empty
string and an empty CAS, `serverHash` is set and the CAS has no record for
it, yet `pull()` fails with the missing-server-hash error, not the
missing-server-content error the claim requires. -/
theorem c5_empty_hash_counterexample :
    serverHash c5EmptyHashInput = some ""
    ∧ getByHash c5EmptyHashInput.cas "" = none
    ∧ (pull (fun _ => "aa") 0 c5EmptyHashInput).1
        = Except.error SyncError.serverHashMissing
    ∧ SyncError.serverHashMissing ≠ SyncError.serverContentMissing := by
  refine ⟨rfl, rfl, rfl, by decide⟩

/-- Witness for C5's amended statement at a concrete input. -/
theorem c5_pull_failure_modes_witness :
    (pull (fun _ => "aa") 0
      { c5EmptyHashInput with hashes := [("g", "bb")] }).1
      = Except.error SyncError.serverContentMissing :=
  ((c5_pull_failure_modes (fun _ => "aa") 0
    { c5EmptyHashInput with hashes := [("g", "bb")] }).2.2 "bb" rfl
    (by decide) rfl).1

/-- Claim C9 (code bug, spec-modelled address variants): `connect()` guards
its address rewrite with `instanceof S3Document`, which never matches the
`S3File` variant a tracked file's constructor assigns, so at the failing
input — local `S3File` address, relay present, remote folder address — the
address is left at the local variant instead of being upgraded; and indeed
no operation ever downgrades a remote-variant address. -/
theorem c9_connect_does_not_upgrade :
    (syncFileConnect true c9FailingInput).2.s3rn = S3RNType.s3File "fg" "g"
    ∧ isRemoteAddr (syncFileConnect true c9FailingInput).2.s3rn = false
    ∧ (∀ st b, isRemoteAddr st.s3rn = true →
        isRemoteAddr (syncFileConnect b st).2.s3rn = true) := by
  refine ⟨rfl, rfl, ?_⟩
  intro st b hr
  rcases st with ⟨g1, p1, n1, fh, stt, cn, tf, s3, fgd, fs3, rid, hs, sts, cas, vfl⟩
  cases fs3 <;> cases s3 <;> cases b <;>
    simp_all [syncFileConnect, isRemoteAddr]

/-- Claim C3: `sync()` returns untouched with an empty external-call trace
when disconnected; bootstrap-pulls unconditionally when no cached local file
handle exists; otherwise force-recomputes the local hash and pulls iff
`isStale && shouldPull` holds of the refreshed state, pushing otherwise. -/
theorem c3_sync_control_flow (g : Bytes → Hash) (fg : Guid) (now : Nat)
    (d : Bool) (st : SyncState) :
    (st.connected = false →
      sync g fg now d st = (Except.ok st, SyncAction.noAction, []))
    ∧ (st.connected = true → st.tfileCached = false →
      sync g fg now d st
        = ((pull g now st).1, SyncAction.pulled, (pull g now st).2))
    ∧ (∀ st1, st.connected = true → st.tfileCached = true →
        getHashForce g st = Except.ok st1 →
        ((isStale st1 && shouldPull st1) = true →
          sync g fg now d st
            = ((pull g now st1).1, SyncAction.pulled,
                Eff.vaultRead :: (pull g now st1).2))
        ∧ ((isStale st1 && shouldPull st1) = false →
          sync g fg now d st
            = ((push g fg now d st1).1.map (fun x => x.2), SyncAction.pushed,
                Eff.vaultRead :: (push g fg now d st1).2))) := by
  refine ⟨?_, ?_, ?_⟩
  · intro hc
    simp [sync, hc]
  · intro hc ht
    simp [sync, hc, ht]
  · intro st1 hc ht hg
    constructor
    · intro hb
      simp [sync, hc, ht, hg, hb]
    · intro hb
      simp [sync, hc, ht, hg, hb]

/-- Witness for C3 at a concrete disconnected file. -/
theorem c3_sync_control_flow_witness :
    sync (fun _ => "aa") "u" 0 false c3DisconnectedInput
      = (Except.ok c3DisconnectedInput, SyncAction.noAction, []) :=
  (c3_sync_control_flow (fun _ => "aa") "u" 0 false c3DisconnectedInput).1 rfl

/-- Claim C10: a successful `pull()` changes only the local file bytes, the
cached local hash and the cached local file handle — guid, path, connected
flag, local sync time, address, both shared metadata maps and the CAS are
untouched, and `shouldPull` has the same value before and after. -/
theorem c10_pull_frame (g : Bytes → Hash) (now : Nat) (st st1 : SyncState)
    (hp : (pull g now st).1 = Except.ok st1) :
    st1.guid = st.guid ∧ st1.path = st.path ∧ st1.name = st.name
    ∧ st1.connected = st.connected ∧ st1.synctime = st.synctime
    ∧ st1.s3rn = st.s3rn ∧ st1.hashes = st.hashes
    ∧ st1.synctimes = st.synctimes ∧ st1.cas = st.cas
    ∧ shouldPull st1 = shouldPull st := by
  have hf : strFalsy (serverHash st) = false := by
    by_contra hcon
    rw [Bool.not_eq_false] at hcon
    simp [pull, hcon] at hp
  rcases hgr : getRemoteT st with ⟨fi, t1⟩
  rcases fi with _ | fi
  · simp [pull, hf, hgr] at hp
  · rcases hrd : casReadFileById st.cas fi.id with _ | content
    · simp [pull, hf, hgr, hrd] at hp
    · simp only [pull, hf, hgr, hrd, Bool.false_eq_true, if_false,
        Except.ok.injEq] at hp
      subst hp
      exact ⟨rfl, rfl, rfl, rfl, rfl, rfl, rfl, rfl, rfl, rfl⟩

/-- Complete description of a `push()` on a materialized local file: it
returns the hash recomputed from the current bytes whatever the
duplicate-write outcome, stamps the local sync time, attempts the CAS write
exactly when the recomputed hash differs from the remote record's hash,
leaves the CAS unchanged when the hashes agree or the write was rejected as
a duplicate, guarantees a record carrying the hash exists afterwards when no
rejection happened, and updates the two shared maps together exactly when
the hash differs from the shared hashes entry. -/
theorem push_spec (g : Bytes → Hash) (fg : Guid) (n : Nat) (d : Bool)
    (st : SyncState) (vf : VaultFile) (hvf : st.vaultFile = some vf) :
    ∃ st1,
      (push g fg n d st).1 = Except.ok (g vf.bytes, st1)
      ∧ st1.guid = st.guid
      ∧ st1.vaultFile = st.vaultFile
      ∧ st1.synctime = n
      ∧ List.lookup st1.guid st1.hashes = some (g vf.bytes)
      ∧ (Eff.casWriteFile (g vf.bytes) ∈ (push g fg n d st).2 ↔
          ((getRemoteT st).1.map fun r => r.synchash) ≠ some (g vf.bytes))
      ∧ (((getRemoteT st).1.map fun r => r.synchash) = some (g vf.bytes) →
          st1.cas = st.cas)
      ∧ (d = true → st1.cas = st.cas)
      ∧ (d = false → ∃ r, r ∈ st1.cas ∧ r.synchash = g vf.bytes)
      ∧ (List.lookup st.guid st.hashes = some (g vf.bytes) →
          st1.hashes = st.hashes ∧ st1.synctimes = st.synctimes)
      ∧ (List.lookup st.guid st.hashes ≠ some (g vf.bytes) →
          List.lookup st.guid st1.hashes = some (g vf.bytes)
          ∧ List.lookup st.guid st1.synctimes = some n) := by
  have hnw := getRemoteT_trace_no_write st (g vf.bytes)
  by_cases hw : ((getRemoteT st).1.map fun r => r.synchash)
      = some (g vf.bytes)
  · obtain ⟨r0, hfi, hr0⟩ := Option.map_eq_some'.mp hw
    have hr0mem : r0 ∈ st.cas := getRemoteT_mem st r0 hfi
    have hc1 : ¬((((getRemoteT st).1.map fun r => r.synchash)
        ≠ some (g vf.bytes)) ∧ d = false) := fun hc => hc.1 hw
    by_cases hl : List.lookup st.guid st.hashes = some (g vf.bytes)
    · simp only [push, hvf]
      rw [if_neg hc1, if_neg (not_not_intro hw), if_neg (not_not_intro hl)]
      refine ⟨_, rfl, rfl, rfl, rfl, hl, ?_, fun _ => rfl, fun _ => rfl,
        fun _ => ⟨r0, hr0mem, hr0⟩, fun _ => ⟨rfl, rfl⟩,
        fun hcon => absurd hl hcon⟩
      simp [List.mem_append, hnw, hw]
    · simp only [push, hvf]
      rw [if_neg hc1, if_neg (not_not_intro hw), if_pos hl]
      refine ⟨_, rfl, rfl, rfl, rfl,
        lookup_cons_self st.guid (g vf.bytes) st.hashes, ?_,
        fun _ => rfl, fun _ => rfl, fun _ => ⟨r0, hr0mem, hr0⟩,
        fun hcon => absurd hcon hl,
        fun _ => ⟨lookup_cons_self st.guid (g vf.bytes) st.hashes,
          lookup_cons_self st.guid n st.synctimes⟩⟩
      simp [List.mem_append, hnw, hw]
  · cases d
    · have hc1 : (((getRemoteT st).1.map fun r => r.synchash)
          ≠ some (g vf.bytes)) ∧ True := ⟨hw, trivial⟩
      by_cases hl : List.lookup st.guid st.hashes = some (g vf.bytes)
      · simp only [push, hvf]
        rw [if_pos hc1, if_pos hw, if_neg (not_not_intro hl)]
        refine ⟨_, rfl, rfl, rfl, rfl, hl, ?_,
          fun hcon => absurd hcon hw, fun hcon => absurd hcon (by decide),
          fun _ => ⟨_, List.mem_append_right st.cas
            (List.mem_singleton.mpr rfl), rfl⟩,
          fun _ => ⟨rfl, rfl⟩, fun hcon => absurd hl hcon⟩
        simp [List.mem_append, hw]
      · simp only [push, hvf]
        rw [if_pos hc1, if_pos hw, if_pos hl]
        refine ⟨_, rfl, rfl, rfl, rfl,
          lookup_cons_self st.guid (g vf.bytes) st.hashes, ?_,
          fun hcon => absurd hcon hw, fun hcon => absurd hcon (by decide),
          fun _ => ⟨_, List.mem_append_right st.cas
            (List.mem_singleton.mpr rfl), rfl⟩,
          fun hcon => absurd hcon hl,
          fun _ => ⟨lookup_cons_self st.guid (g vf.bytes) st.hashes,
            lookup_cons_self st.guid n st.synctimes⟩⟩
        simp [List.mem_append, hw]
    · have hc1 : ¬((((getRemoteT st).1.map fun r => r.synchash)
          ≠ some (g vf.bytes)) ∧ (true : Bool) = false) :=
        fun hc => absurd hc.2 (by decide)
      by_cases hl : List.lookup st.guid st.hashes = some (g vf.bytes)
      · simp only [push, hvf]
        rw [if_neg hc1, if_pos hw, if_neg (not_not_intro hl)]
        refine ⟨_, rfl, rfl, rfl, rfl, hl, ?_,
          fun hcon => absurd hcon hw, fun _ => rfl,
          fun hcon => absurd hcon (by decide),
          fun _ => ⟨rfl, rfl⟩, fun hcon => absurd hl hcon⟩
        simp [List.mem_append, hw]
      · simp only [push, hvf]
        rw [if_neg hc1, if_pos hw, if_pos hl]
        refine ⟨_, rfl, rfl, rfl, rfl,
          lookup_cons_self st.guid (g vf.bytes) st.hashes, ?_,
          fun hcon => absurd hcon hw, fun _ => rfl,
          fun hcon => absurd hcon (by decide),
          fun hcon => absurd hcon hl,
          fun _ => ⟨lookup_cons_self st.guid (g vf.bytes) st.hashes,
            lookup_cons_self st.guid n st.synctimes⟩⟩
        simp [List.mem_append, hw]

/-- Claim C4: `push()` recomputes the hash from the current local bytes and
returns it; writes a CAS record with the bytes only when that hash differs
from the remote metadata's recorded hash (or no remote metadata exists);
swallows a duplicate-write rejection and still completes; sets the local
sync time to now; updates `hashes[guid]` and `syncTimes[guid]` together in
one transaction iff the hash differs from `hashes[guid]`; and pushing
unchanged content twice returns the same hash with no further CAS write. -/
theorem c4_push_contract (g : Bytes → Hash) (fg1 fg2 : Guid) (n1 n2 : Nat)
    (d : Bool) (st : SyncState) (vf : VaultFile)
    (hvf : st.vaultFile = some vf) :
    ∃ st1,
      (push g fg1 n1 d st).1 = Except.ok (g vf.bytes, st1)
      ∧ st1.synctime = n1
      ∧ (Eff.casWriteFile (g vf.bytes) ∈ (push g fg1 n1 d st).2 ↔
          ((getRemote st).map fun r => r.synchash) ≠ some (g vf.bytes))
      ∧ (((getRemote st).map fun r => r.synchash) = some (g vf.bytes) →
          st1.cas = st.cas)
      ∧ (d = true → st1.cas = st.cas)
      ∧ (List.lookup st.guid st.hashes = some (g vf.bytes) →
          st1.hashes = st.hashes ∧ st1.synctimes = st.synctimes)
      ∧ (List.lookup st.guid st.hashes ≠ some (g vf.bytes) →
          List.lookup st.guid st1.hashes = some (g vf.bytes)
          ∧ List.lookup st.guid st1.synctimes = some n1)
      ∧ (d = false → g vf.bytes ≠ "" →
          ∃ st2,
            (push g fg2 n2 false st1).1 = Except.ok (g vf.bytes, st2)
            ∧ st2.cas = st1.cas
            ∧ Eff.casWriteFile (g vf.bytes) ∉ (push g fg2 n2 false st1).2) := by
  obtain ⟨st1, h1, hguid, hvault, hsync, hlook, htr, hceq, hdt, hdf, hsame,
    hdiff⟩ := push_spec g fg1 n1 d st vf hvf
  refine ⟨st1, h1, hsync, ?_, ?_, hdt, hsame, hdiff, ?_⟩
  · rw [getRemoteT_fst] at htr
    exact htr
  · intro hs
    exact hceq (by rw [getRemoteT_fst]; exact hs)
  · intro hd hne
    subst hd
    obtain ⟨r, hrmem, hrsync⟩ := hdf rfl
    obtain ⟨r2, hr2, hr2s⟩ :=
      getByHash_exists st1.cas (g vf.bytes) r hrmem hrsync
    have hsrv : serverHash st1 = some (g vf.bytes) := hlook
    have hfi2 : ((getRemoteT st1).1.map fun r => r.synchash)
        = some (g vf.bytes) := by
      have hf : strFalsy (serverHash st1) = false := by
        rw [hsrv]
        exact (isEmpty_eq_false_iff (g vf.bytes)).mpr hne
      unfold getRemoteT
      rw [if_neg (by rw [hf]; exact Bool.false_ne_true), hsrv]
      simp [hr2, hr2s]
    obtain ⟨st2, h2, _, _, _, _, htr2, hceq2, _, _, _, _⟩ :=
      push_spec g fg2 n2 false st1 vf (by rw [hvault, hvf])
    refine ⟨st2, h2, hceq2 hfi2, ?_⟩
    rw [htr2]
    simp [hfi2]

/-- Witness for C4 at a concrete double push of unchanged content. -/
theorem c4_push_contract_witness :
    ((push (fun _ => "cc") "u1" 10 false c4Input).1.map fun x => x.1)
      = Except.ok "cc" := by
  obtain ⟨st1, h1, -⟩ := c4_push_contract (fun _ => "cc") "u1" "u2" 10 11
    false c4Input { bytes := [1], ctime := 1, mtime := 2 } rfl
  rw [h1]
  rfl

/-- Witness for C10 at a concrete successful pull. -/
theorem c10_pull_frame_witness :
    c10Pulled.hashes = c10Input.hashes
    ∧ shouldPull c10Pulled = shouldPull c10Input := by
  have h := c10_pull_frame (fun _ => "hh") 6 c10Input c10Pulled (by rfl)
  exact ⟨h.2.2.2.2.2.2.1, h.2.2.2.2.2.2.2.2.2⟩

end Relay
